import Mathlib

/-!
Shallow embedding of the slchat.js client library (src/index.js) for
verification of its natural-language specification.

Conventions used throughout:
* JS strings are modelled as Lean `String` (a list of characters); all inputs
  exercised here are ASCII, for which JS UTF-16 code-unit indexing, `slice`,
  `trim`, `toLowerCase` and character counting agree with the Lean model.
* JS `Map` objects are modelled as association lists with JS `Map` semantics
  (`set` replaces in place, `get` returns the first match, `delete` removes).
* Fallible or effectful operations are modelled by explicit result values and
  explicit state passing; wall-clock time (`Date.now()`) is an explicit `Nat`
  parameter.
-/

namespace Slchat

/-! ### JS string primitives

Models of the JavaScript string operations used by src/index.js, defined by
structural recursion so that every concrete instance evaluates in the kernel.
-/

/-- JS `s.slice(0, n)` (character cut). -/
def jsTake (s : String) (n : Nat) : String := ⟨s.data.take n⟩

/-- JS `s.slice(n)`. -/
def jsDrop (s : String) (n : Nat) : String := ⟨s.data.drop n⟩

/-- JS whitespace (ASCII part; the inputs considered here are ASCII). -/
def isJsSpace (c : Char) : Bool :=
  c = ' ' || c = '\t' || c = '\n' || c = '\r'

/-- JS `s.trim()`. -/
def jsTrim (s : String) : String :=
  ⟨((s.data.dropWhile isJsSpace).reverse.dropWhile isJsSpace).reverse⟩

/-- JS `s.startsWith(p)`. -/
def jsStartsWith (s p : String) : Bool := s.data.take p.data.length == p.data

/-- JS `s.toLowerCase()` (ASCII). -/
def jsToLower (s : String) : String := ⟨s.data.map Char.toLower⟩

/-- Worker for `jsSplitOn`: `skip` counts separator characters still to be
consumed after a separator match. -/
def jsSplitGo (sep : List Char) : List Char → Nat → List Char → List (List Char)
  | [], _, acc => [acc.reverse]
  | _ :: cs, Nat.succ k, acc => jsSplitGo sep cs k acc
  | c :: cs, 0, acc =>
    if (c :: cs).take sep.length == sep then
      acc.reverse :: jsSplitGo sep cs (sep.length - 1) []
    else
      jsSplitGo sep cs 0 (c :: acc)

/-- JS `s.split(sep)` for a non-empty separator string. -/
def jsSplitOn (s sep : String) : List String :=
  (jsSplitGo sep.data s.data 0 []).map (fun l => ⟨l⟩)

/-- JS `parts.join(sep)`. -/
def jsJoin (sep : String) (parts : List String) : String :=
  String.intercalate sep parts

/-! ### JS Map model (association list with Map semantics) -/

/-- JS `map.get(k)` (as `Option`; `undefined` is `none`). -/
def jsMapGet {α : Type} (m : List (String × α)) (k : String) : Option α :=
  (m.find? (fun p => p.1 == k)).map (fun p => p.2)

/-- JS `map.set(k, v)`: replace in place if present, else append. -/
def jsMapSet {α : Type} : List (String × α) → String → α → List (String × α)
  | [], k, v => [(k, v)]
  | p :: m, k, v => if p.1 == k then (k, v) :: m else p :: jsMapSet m k v

/-- JS `map.has(k)`. -/
def jsMapHas {α : Type} (m : List (String × α)) (k : String) : Bool :=
  m.any (fun p => p.1 == k)

/-- JS `map.delete(k)` (keys are unique, so filtering removes the entry). -/
def jsMapDelete {α : Type} (m : List (String × α)) (k : String) : List (String × α) :=
  m.filter (fun p => !(p.1 == k))

/-! ### Constants (src/index.js lines 13-17) -/

def RATE_LIMIT_MS : Nat := 1000

def CACHE_TTL_MS : Nat := 30 * 60 * 1000

/-! ### Configuration validation (src/index.js lines 20-44)

Only the parts cited by the claims are embedded: the prefix and length checks.
A `none` argument models an absent or non-string (resp. non-number) field.
-/

def defaultConfigPfx : String := "!"

/-- validateConfig restricted to the command prefix field:
falls back to the default when the supplied value is absent, not a string,
or empty; any other string is accepted verbatim. -/
def validatedPfx (p : Option String) : String :=
  match p with
  | none => defaultConfigPfx
  | some s => if s = "" then defaultConfigPfx else s

/-- validateConfig restricted to maxMessageLength. -/
def validatedMaxLength (n : Option Nat) : Nat :=
  match n with
  | none => 2000
  | some m => if m < 100 then 2000 else m

/-! ### Message formatting (src/index.js lines 88-189)

The third-party sanitize-html call (lines 129-132) is not code of this
repository; `formatMessage` is therefore parametric in the sanitizer.  The
theorems below only ever rely on the sanitizer through explicit hypotheses
stating how it acts on the markup-free strings involved (per the spec, the
sanitizer strips disallowed markup and leaves plain text intact).
-/

/-- EMBED_TYPES table (lines 90-98), in source order. -/
structure EmbedType where
  key : String
  className : String
  icon : String
deriving DecidableEq

def EMBED_TYPES : List EmbedType :=
  [ ⟨"embed", "embed", ""⟩,
    ⟨"embed:note", "embed note", "bx bx-note"⟩,
    ⟨"embed:success", "embed success", "bx bx-check-circle"⟩,
    ⟨"embed:info", "embed info", "bx bx-info-circle"⟩,
    ⟨"embed:warn", "embed warn", "bx bx-error"⟩,
    ⟨"embed:error", "embed error", "bx bx-x-circle"⟩,
    ⟨"embed:clean", "embed clean", ""⟩ ]

/-- FORMAT_SHORTCUTS table (lines 101-114), in source order. -/
structure FormatShortcut where
  key : String
  wrap : String → String

def FORMAT_SHORTCUTS : List FormatShortcut :=
  [ ⟨"strong", fun v => "<strong>" ++ v ++ "</strong>"⟩,
    ⟨"italic", fun v => "<em>" ++ v ++ "</em>"⟩,
    ⟨"strike", fun v => "<del>" ++ v ++ "</del>"⟩,
    ⟨"underline", fun v => "<u>" ++ v ++ "</u>"⟩,
    ⟨"code", fun v => "<code>" ++ v ++ "</code>"⟩,
    ⟨"codeblock", fun v => "<code class=\"multiline\">" ++ v ++ "</code>"⟩,
    ⟨"spoiler", fun v => "<p class=\"spoiler\">" ++ v ++ "</p>"⟩,
    ⟨"quote", fun v => "<blockquote>" ++ v ++ "</blockquote>"⟩,
    ⟨"h1", fun v => "<h1>" ++ v ++ "</h1>"⟩,
    ⟨"h2", fun v => "<h2>" ++ v ++ "</h2>"⟩,
    ⟨"h3", fun v => "<h3>" ++ v ++ "</h3>"⟩,
    ⟨"ul", fun v => "<ul><li>" ++ v ++ "</li></ul>"⟩ ]

/-- Stable insertion (descending key length): an element is inserted after all
strictly longer elements and after earlier equal-length elements. -/
def insertLenDesc (x : String) : List String → List String
  | [] => [x]
  | y :: ys => if x.length < y.length then y :: insertLenDesc x ys else x :: y :: ys

/-- JS `Object.keys(EMBED_TYPES).sort((a, b) => b.length - a.length)`
(line 135); JS Array.prototype.sort is stable. -/
def sortedKeys : List String :=
  (EMBED_TYPES.map (fun e => e.key)).foldr insertLenDesc []

/-- JS `trimmed.replace(/\n/g, "<br>")` (line 127). -/
def replaceNlChars : List Char → List Char
  | [] => []
  | c :: cs =>
    if c = '\n' then '<' :: 'b' :: 'r' :: '>' :: replaceNlChars cs
    else c :: replaceNlChars cs

def withBreaksOf (s : String) : String := ⟨replaceNlChars s.data⟩

/-- Per-line shortcut application (lines 144-151 and 160-167): trim the line,
return the first matching shortcut applied to the trimmed remainder, or the
trimmed line unchanged. -/
def applyShortcutsLine (line : String) : String :=
  let l := jsTrim line
  match FORMAT_SHORTCUTS.find? (fun f => jsStartsWith l (f.key ++ ":")) with
  | some f => f.wrap (jsTrim (jsDrop l (f.key.length + 1)))
  | none => l

/-- Lines 143-152 / 159-168: split on line-break markup, apply shortcuts per
line, drop empty lines, rejoin. -/
def formatLines (s : String) : String :=
  jsJoin "<br>" (((jsSplitOn s "<br>").map applyShortcutsLine).filter (fun l => l ≠ ""))

/-- Line 136-137: first key (longest first) such that the lowercased sanitized
text starts with the key followed by a colon. -/
def findEmbedKey (sanitized : String) : Option String :=
  sortedKeys.find? (fun k => jsStartsWith (jsToLower sanitized) (k ++ ":"))

/-- JS `EMBED_TYPES[key]` (line 139); the scanned keys all come from the
table, so the default is never reached. -/
def embedLookup (k : String) : EmbedType :=
  (EMBED_TYPES.find? (fun e => e.key == k)).getD ⟨"", "", ""⟩

/-- Lines 134-188: embed dispatch, inline shortcuts, attachment shortcuts. -/
def formatSanitized (sanitized : String) : String :=
  match findEmbedKey sanitized with
  | some k =>
    let et := embedLookup k
    let content := jsTrim (jsDrop sanitized (k.length + 1))
    let iconHTML := if et.icon ≠ "" then "<i class=\"" ++ et.icon ++ "\"></i> " else ""
    "<div class=\"" ++ et.className ++ "\">" ++ iconHTML ++ formatLines content ++ "</div>"
  | none =>
    let formattedLines := formatLines sanitized
    if jsStartsWith formattedLines "imgspoiler:" then
      "<img class=\"attachment spoiler\" src=\"" ++ jsTrim (jsDrop formattedLines 11) ++ "\"></img>"
    else if jsStartsWith formattedLines "img:" then
      "<img class=\"attachment\" src=\"" ++ jsTrim (jsDrop formattedLines 4) ++ "\"></img>"
    else if jsStartsWith formattedLines "audio:" then
      "<audio controls src=\"" ++ jsTrim (jsDrop formattedLines 6) ++ "\"></audio>"
    else if jsStartsWith formattedLines "video:" then
      "<video class=\"attachment\" controls width=\"320\" height=\"240\"><source src=\""
        ++ jsTrim (jsDrop formattedLines 6) ++ "\" type=\"video/\"></video>"
    else formattedLines

/-- Lines 126-188 applied to the already trimmed-and-truncated text. -/
def formatCore (sanitize : String → String) (trimmed : String) : String :=
  formatSanitized (sanitize (withBreaksOf trimmed))

/-- formatMessage (lines 121-189).  `input = ""` covers the JS falsy/non-string
guard for string-typed input. -/
def formatMessage (sanitize : String → String) (input : String) (maxLength : Nat) : String :=
  if input = "" then ""
  else
    let trimmed := jsTake (jsTrim input) maxLength
    if trimmed = "" then "" else formatCore sanitize trimmed

/-- An identity sanitizer. Modelled from the spec: the sanitize step only
strips disallowed markup, so on markup-free text (no tags, no HTML special
characters) it returns its input unchanged; every concrete input used with
this instance is markup-free. -/
def sanitizeId : String → String := fun s => s

/-! ### Request cache with TTL (src/index.js lines 192-217) -/

structure CacheEntry where
  value : Nat
  expiry : Nat
deriving DecidableEq

/-- Cache.get (lines 199-207): miss on absent key; an expired entry is deleted
and reported as a miss; otherwise the stored value is returned.  The returned
list is the (possibly updated) backing store.  Stored values are opaque JSON
objects, represented by `Nat` identifiers; only objects are ever stored, so a
stored value is always JS-truthy. -/
def cacheGet (store : List (String × CacheEntry)) (now : Nat) (key : String) :
    Option Nat × List (String × CacheEntry) :=
  match jsMapGet store key with
  | none => (none, store)
  | some item =>
    if item.expiry < now then (none, jsMapDelete store key)
    else (some item.value, store)

/-- Cache.set (lines 210-212): store with expiry `now + CACHE_TTL_MS`. -/
def cacheSet (store : List (String × CacheEntry)) (now : Nat) (key : String) (value : Nat) :
    List (String × CacheEntry) :=
  jsMapSet store key ⟨value, now + CACHE_TTL_MS⟩

/-! ### getJsonCache as a two-phase process (src/index.js lines 312-341)

`getJsonCache` suspends exactly once, at `await axios.get(url)`.  It is
modelled as a transition system over two concurrent callers (A and B): a
`start` event runs the synchronous part up to the await (cache probe; on a
miss the network request is issued), and a `settle` event runs the
continuation after the await (on a resolved object the value is cached and
returned; every failure — rejection, status >= 400, non-object body — lands
in the catch block, which counts an error and returns null without touching
the cache).  `netCalls` counts issued network requests. -/

inductive NetResult where
  /-- The awaited request failed: network rejection, or the thrown
  HTTP >= 400 error. -/
  | err
  /-- The awaited request resolved with body `data`; `isObj` is the JS test
  `data && typeof data === "object"` (lines 326-329). -/
  | ok (data : Nat) (isObj : Bool)
deriving DecidableEq

inductive CallerPhase where
  | idle
  | awaitingNet (url : String)
  | done (result : Option Nat)
deriving DecidableEq

inductive CallerId where
  | A
  | B
deriving DecidableEq

structure Sys where
  store : List (String × CacheEntry)
  netCalls : Nat
  errors : Nat
  callerA : CallerPhase
  callerB : CallerPhase
deriving DecidableEq

def phaseOf (s : Sys) : CallerId → CallerPhase
  | CallerId.A => s.callerA
  | CallerId.B => s.callerB

def setPhase (s : Sys) : CallerId → CallerPhase → Sys
  | CallerId.A, p => { s with callerA := p }
  | CallerId.B, p => { s with callerB := p }

inductive Event where
  /-- Caller `i` invokes `getJsonCache(url)` at time `now` and runs up to the
  await. -/
  | start (i : CallerId) (url : String) (now : Nat)
  /-- Caller `i`'s awaited network request settles with `res` at time `now`. -/
  | settle (i : CallerId) (res : NetResult) (now : Nat)

/-- One scheduler step.  Events that do not match the caller's phase are
no-ops (the scheduler only fires enabled events). -/
def step (s : Sys) : Event → Sys
  | Event.start i url now =>
    match phaseOf s i with
    | CallerPhase.idle =>
      match cacheGet s.store now url with
      | (some v, store2) =>
        -- lines 313-314: `if (cached) return cached` (stored values are
        -- objects, hence truthy)
        setPhase { s with store := store2 } i (CallerPhase.done (some v))
      | (none, store2) =>
        -- lines 317-322: cache miss; the network request is issued and the
        -- caller suspends.  Nothing is stored for the key yet.
        setPhase { s with store := store2, netCalls := s.netCalls + 1 } i
          (CallerPhase.awaitingNet url)
    | _ => s
  | Event.settle i res now =>
    match phaseOf s i with
    | CallerPhase.awaitingNet url =>
      match res with
      | NetResult.err =>
        -- lines 332-340: catch block — count the error, return null;
        -- the cache is left unchanged.
        setPhase { s with errors := s.errors + 1 } i (CallerPhase.done none)
      | NetResult.ok d true =>
        -- lines 326-331: object body — cache it and return it.
        setPhase { s with store := cacheSet s.store now url d } i
          (CallerPhase.done (some d))
      | NetResult.ok _ false =>
        -- lines 327-329: non-object body throws, landing in the catch block.
        setPhase { s with errors := s.errors + 1 } i (CallerPhase.done none)
    | _ => s

def run (s : Sys) : List Event → Sys
  | [] => s
  | e :: es => run (step s e) es

/-! ### Command registry (src/index.js lines 9-10 and 77-86) -/

/-- The `command(name, func)` registration function (lines 77-86), acting on
the module-level `commandDict` map.  Handlers are opaque (`Nat` identifiers);
`func = none` models a non-function argument.  Result: the updated dictionary,
whether an error was thrown (line 79), and whether the overwrite warning was
emitted (lines 81-83).  On a throw the dictionary is untouched. -/
def commandRegister (dict : List (String × Nat)) (name : String) (func : Option Nat) :
    List (String × Nat) × Bool × Bool :=
  match func with
  | none => (dict, true, false)
  | some f =>
    if name = "" then (dict, true, false)
    else (jsMapSet dict name f, false, jsMapHas dict name)

/-! ### Bot.send with per-server rate limiting (src/index.js lines 480-521) -/

structure BotSendState where
  serverIds : List String
  lastSent : List (String × Nat)
  /-- Servers with a socket in `sioInstances`; the `emit` on a present socket
  is modelled as succeeding. -/
  hasSocket : List String
  messagesSent : Nat
  errors : Nat
deriving DecidableEq

inductive SendResult where
  | notInServer
  | invalidMessage
  | rateLimited
  | noSocket
  | sent
deriving DecidableEq

/-- Bot.send (lines 480-521) at wall-clock time `now`.  All early-return error
branches report through onError and leave the state unchanged; the missing
socket throw is caught (line 516) and counts an error; only a transmitted
message updates `lastSent` and `messagesSent` (lines 512-513). -/
def send (s : BotSendState) (now : Nat) (message serverId : String) :
    BotSendState × SendResult :=
  if s.serverIds.contains serverId = false then (s, SendResult.notInServer)
  else if message = "" then (s, SendResult.invalidMessage)
  else if now - ((jsMapGet s.lastSent serverId).getD 0) < RATE_LIMIT_MS then
    (s, SendResult.rateLimited)
  else if s.hasSocket.contains serverId = false then
    ({ s with errors := s.errors + 1 }, SendResult.noSocket)
  else
    ({ s with lastSent := jsMapSet s.lastSent serverId now,
              messagesSent := s.messagesSent + 1 }, SendResult.sent)

/-! ### Sender identity and dispatch (src/index.js lines 412-474) -/

/-- The `label` object of a fetched user record; `name` may be absent. -/
structure UserLabel where
  name : Option String
deriving DecidableEq

/-- A fetched user record; `label` may be absent. -/
structure User where
  label : Option UserLabel
deriving DecidableEq

/-- Bot.isBot (lines 426-429): `user?.label?.name === "BOT" || false`, where
`user` is the (possibly null) result of the cached lookup. -/
def isBot (user : Option User) : Bool :=
  ((user.bind (fun u => u.label)).bind (fun l => l.name)) == some "BOT"

/-- Observable outcome of one `checkNewCommand` dispatch. -/
structure DispatchOutcome where
  /-- Dispatch returned early because the sender-is-bot check resolved true. -/
  suppressed : Bool
  /-- The onMessage hook was invoked. -/
  onMessageInvoked : Bool
  /-- Parsed (command name, joined argument string) when the text started with
  the configured prefix. -/
  parsed : Option (String × String)
  /-- Name of the registered handler that was invoked, if any. -/
  invoked : Option String
  /-- The unknown-command error path was taken (lines 459-464). -/
  unknownCommand : Bool
deriving DecidableEq

/-- Bot.checkNewCommand (lines 444-474).  `isBotSender` is the resolved value
of `await this.isBot(message.owner?.id)`; `registered` is the set of names in
`commandDict` (handlers themselves are irrelevant to the claims; the
arity-sensing call on line 466 invokes the handler either way). -/
def checkNewCommand (isBotSender : Bool) (text pfx : String)
    (registered : List String) : DispatchOutcome :=
  if isBotSender then ⟨true, false, none, none, false⟩
  else if jsStartsWith text pfx then
    -- line 454: `message.text.slice(1).trim().split(" ")` — note the literal
    -- one-character slice.
    let parts := jsSplitOn (jsTrim (jsDrop text 1)) " "
    let cmdName := jsToLower (parts.headD "")
    let arg := jsJoin " " parts.tail
    if registered.contains cmdName then
      ⟨false, true, some (cmdName, arg), some cmdName, false⟩
    else
      ⟨false, true, some (cmdName, arg), none, true⟩
  else ⟨false, true, none, none, false⟩

/-! ### EmbedBuilder (src/index.js lines 558-665)

The builder is a mutable object with fluent methods, each ending in
`return this`.  A method is modelled as a function from the builder state to
the pair (post-state of the object, value of the returned reference); the
two components being equal is exactly the JS `return this` contract.
`build` assigns no field, so its post-state component is its input. -/

/-- JS string-or-null (`null` is `none`). -/
abbrev JsStr := Option String

/-- JS truthiness of a string-or-null value. -/
def jsTruthy : JsStr → Bool
  | none => false
  | some s => s ≠ ""

/-- JS `a || b` on string-or-null values. -/
def jsOrElse (a b : JsStr) : JsStr :=
  if jsTruthy a then a else b

/-- EMBED_ICONS table (lines 559-567): `clean` and `default` map to null, any
other key is an absent property (undefined); both are falsy, modelled `none`. -/
def EMBED_ICONS (t : String) : JsStr :=
  if t = "error" then some "bx-x-circle"
  else if t = "warn" then some "bx-error"
  else if t = "info" then some "bx-info-circle"
  else if t = "success" then some "bx-check-circle"
  else if t = "note" then some "bx-note"
  else none

structure EmbedBuilder where
  embedType : String
  title : String
  description : String
  attachment : String
  authorHtml : String
  fieldsHtml : List String
  showIcon : Bool
  customColor : JsStr
  customIcon : JsStr
deriving DecidableEq

/-- Constructor (lines 569-579) with its default arguments. -/
def EmbedBuilder.new (embedType : String) (title : String) (description : String) :
    EmbedBuilder :=
  ⟨embedType, title, description, "", "", [], true, none, none⟩

def setType (b : EmbedBuilder) (embedType : String) : EmbedBuilder × EmbedBuilder :=
  let b2 := { b with embedType := embedType }
  (b2, b2)

def setColor (b : EmbedBuilder) (color : String) : EmbedBuilder × EmbedBuilder :=
  let b2 := { b with customColor := some color }
  (b2, b2)

def setIcon (b : EmbedBuilder) (iconClass : String) : EmbedBuilder × EmbedBuilder :=
  let b2 := { b with customIcon := some iconClass }
  (b2, b2)

def setTitle (b : EmbedBuilder) (text : String) : EmbedBuilder × EmbedBuilder :=
  let b2 := { b with title := text }
  (b2, b2)

def setDescription (b : EmbedBuilder) (text : String) : EmbedBuilder × EmbedBuilder :=
  let b2 := { b with description := text }
  (b2, b2)

def setAttachment (b : EmbedBuilder) (url : String) : EmbedBuilder × EmbedBuilder :=
  let b2 := { b with attachment := url }
  (b2, b2)

def setAuthor (b : EmbedBuilder) (title url : String) : EmbedBuilder × EmbedBuilder :=
  let b2 := { b with authorHtml :=
    "<div class='center gap'><img class='avatar' loading='lazy' src='" ++ url ++ "'>"
      ++ title ++ "</div>" }
  (b2, b2)

def setShowIcon (b : EmbedBuilder) (state : Bool) : EmbedBuilder × EmbedBuilder :=
  let b2 := { b with showIcon := state }
  (b2, b2)

def disableIcon (b : EmbedBuilder) : EmbedBuilder × EmbedBuilder :=
  setShowIcon b false

/-- addField (lines 625-636); `color`/`icon` default to null in the source. -/
def addField (b : EmbedBuilder) (name value : String) (inl : Bool) (color icon : JsStr) :
    EmbedBuilder × EmbedBuilder :=
  let style := if jsTruthy color then " style='color: " ++ color.getD "" ++ ";'" else ""
  let iconHtml := if jsTruthy icon then "<i class='bx " ++ icon.getD "" ++ "'></i>" else ""
  let inlineHtml := if inl then " inline" else ""
  let valueHtml :=
    if jsTruthy color || jsTruthy icon then
      "<p class='center gap'" ++ style ++ ">" ++ iconHtml ++ value ++ "</p>"
    else value
  let fieldHtml :=
    "<div class='center gap" ++ inlineHtml ++ "'><strong>" ++ name ++ "</strong> "
      ++ valueHtml ++ "</div>"
  let b2 := { b with fieldsHtml := b.fieldsHtml ++ [fieldHtml] }
  (b2, b2)

/-- code (lines 638-643); `language` defaults to "". -/
def codeBlock (b : EmbedBuilder) (content language : String) :
    EmbedBuilder × EmbedBuilder :=
  let langClass := if language ≠ "" then "language-" ++ language else ""
  let html := "<pre><code class=\"" ++ langClass ++ "\">" ++ content ++ "</code></pre>"
  let b2 := { b with fieldsHtml := b.fieldsHtml ++ [html] }
  (b2, b2)

/-- build (lines 645-664): a read of the accumulated state; the source body
contains no assignment to `this`, so the post-state is the input state. -/
def build (b : EmbedBuilder) : EmbedBuilder × String :=
  let typeClass := if b.embedType ≠ "default" then " " ++ b.embedType else ""
  let iconClass := jsOrElse b.customIcon (EMBED_ICONS b.embedType)
  let hasIcon := b.showIcon && jsTruthy iconClass
  let iconParentClass := if hasIcon then "" else " block"
  let styleAttr :=
    if jsTruthy b.customColor then " style=\"--color: " ++ b.customColor.getD "" ++ "\""
    else ""
  let iconHtml :=
    if hasIcon then "<i class='bx " ++ iconClass.getD "" ++ "'></i><div class='inline'>"
    else ""
  let iconEndHtml := if hasIcon then "</div>" else ""
  let attachmentHtml :=
    if b.attachment ≠ "" then "<img class='attachment' src='" ++ b.attachment ++ "'>" else ""
  let titleHtml := if b.title ≠ "" then "<h4>" ++ b.title ++ "</h4>" else ""
  let descriptionHtml := b.description
  let fieldsJoined := if b.fieldsHtml ≠ [] then jsJoin "<br>" b.fieldsHtml else ""
  let combinedContent :=
    jsJoin "<br>"
      (([b.authorHtml, titleHtml, descriptionHtml, fieldsJoined, attachmentHtml]).filter
        (fun x => x ≠ ""))
  (b, "<div class='embed" ++ iconParentClass ++ typeClass ++ "'" ++ styleAttr ++ ">"
      ++ iconHtml ++ combinedContent ++ iconEndHtml ++ "</div>")

/-!
## Theorems

Helper lemmas are shared; each claim has exactly one main theorem, plus a
witness (when it has hypotheses) or a counterexample (when the claim as
stated fails on the code).
-/

/-! ### Shared helper lemmas -/

theorem jsMapGet_jsMapSet {α : Type} (m : List (String × α)) (k : String) (v : α) :
    jsMapGet (jsMapSet m k v) k = some v := by
  induction m with
  | nil => simp [jsMapGet, jsMapSet, List.find?]
  | cons p m ih =>
    by_cases h : p.1 == k
    · simp [jsMapGet, jsMapSet, h, List.find?]
    · simp only [jsMapSet, h, if_false]
      simpa [jsMapGet, List.find?, h] using ih

theorem jsMapHas_jsMapSet {α : Type} (m : List (String × α)) (k : String) (v : α) :
    jsMapHas (jsMapSet m k v) k = true := by
  induction m with
  | nil => simp [jsMapHas, jsMapSet]
  | cons p m ih =>
    by_cases h : p.1 == k
    · simp [jsMapHas, jsMapSet, h]
    · simp only [jsMapSet, h, if_false]
      simpa [jsMapHas, h] using ih

/-- Sanity check: the longest-first key order the embed scan uses. -/
theorem sortedKeys_eq :
    sortedKeys = ["embed:success", "embed:error", "embed:clean",
                  "embed:note", "embed:info", "embed:warn", "embed"] := by decide

/-- A cache probe for an absent key is a miss and leaves the store unchanged. -/
theorem cacheGet_of_absent (store : List (String × CacheEntry)) (now : Nat)
    (url : String) (h : jsMapGet store url = none) :
    cacheGet store now url = (none, store) := by
  unfold cacheGet
  rw [h]

/-- A cache probe right after `cacheSet`, within the TTL, hits the stored
value and leaves the store unchanged. -/
theorem cacheGet_after_cacheSet (store : List (String × CacheEntry))
    (tSet tGet : Nat) (url : String) (v : Nat)
    (h : tGet ≤ tSet + CACHE_TTL_MS) :
    cacheGet (cacheSet store tSet url v) tGet url
      = (some v, cacheSet store tSet url v) := by
  unfold cacheGet cacheSet
  rw [jsMapGet_jsMapSet]
  simp [Nat.not_lt.mpr h]

/-! ### C1 — request cache and in-flight deduplication -/

/-- C1 (counterexample): two concurrent `getJsonCache` calls for the same
unseen URL, both issued before either resolves, make TWO network calls, and
the two callers can resolve to different values — the pending operation is
never stored, contradicting the claimed at-most-one-in-flight guarantee. -/
theorem C1_counterexample :
    (run ⟨[], 0, 0, CallerPhase.idle, CallerPhase.idle⟩
        [Event.start CallerId.A "https://slchat.alwaysdata.net/api/user/7/" 0,
         Event.start CallerId.B "https://slchat.alwaysdata.net/api/user/7/" 0]).netCalls = 2
    ∧ (run ⟨[], 0, 0, CallerPhase.idle, CallerPhase.idle⟩
        [Event.start CallerId.A "https://slchat.alwaysdata.net/api/user/7/" 0,
         Event.start CallerId.B "https://slchat.alwaysdata.net/api/user/7/" 0,
         Event.settle CallerId.A (NetResult.ok 7 true) 1,
         Event.settle CallerId.B (NetResult.ok 8 true) 2]).callerA
        = CallerPhase.done (some 7)
    ∧ (run ⟨[], 0, 0, CallerPhase.idle, CallerPhase.idle⟩
        [Event.start CallerId.A "https://slchat.alwaysdata.net/api/user/7/" 0,
         Event.start CallerId.B "https://slchat.alwaysdata.net/api/user/7/" 0,
         Event.settle CallerId.A (NetResult.ok 7 true) 1,
         Event.settle CallerId.B (NetResult.ok 8 true) 2]).callerB
        = CallerPhase.done (some 8) := by decide

/-- C1 (amended): the cache stores only settled values, never the pending
request.  Two fetches of an unseen key that both start before either settles
each issue a network call; deduplication only happens once a successful fetch
has settled, after which a fetch within the TTL returns the cached value with
no further network call. -/
theorem C1_amended (store : List (String × CacheEntry)) (nc er : Nat) (url : String)
    (t0 t1 t2 t3 : Nat) (v : Nat)
    (h : jsMapGet store url = none) (hexp : t3 ≤ t2 + CACHE_TTL_MS) :
    (run ⟨store, nc, er, CallerPhase.idle, CallerPhase.idle⟩
        [Event.start CallerId.A url t0, Event.start CallerId.B url t1]).netCalls
      = nc + 2
    ∧ run ⟨store, nc, er, CallerPhase.idle, CallerPhase.idle⟩
        [Event.start CallerId.A url t0,
         Event.settle CallerId.A (NetResult.ok v true) t2,
         Event.start CallerId.B url t3]
      = ⟨cacheSet store t2 url v, nc + 1, er,
         CallerPhase.done (some v), CallerPhase.done (some v)⟩ := by
  have h1 : step ⟨store, nc, er, CallerPhase.idle, CallerPhase.idle⟩
      (Event.start CallerId.A url t0)
      = ⟨store, nc + 1, er, CallerPhase.awaitingNet url, CallerPhase.idle⟩ := by
    simp [step, phaseOf, cacheGet_of_absent store t0 url h, setPhase]
  constructor
  · have h2 : step ⟨store, nc + 1, er, CallerPhase.awaitingNet url, CallerPhase.idle⟩
        (Event.start CallerId.B url t1)
        = ⟨store, nc + 1 + 1, er, CallerPhase.awaitingNet url, CallerPhase.awaitingNet url⟩ := by
      simp [step, phaseOf, cacheGet_of_absent store t1 url h, setPhase]
    simp [run, h1, h2]
  · have h2 : step ⟨store, nc + 1, er, CallerPhase.awaitingNet url, CallerPhase.idle⟩
        (Event.settle CallerId.A (NetResult.ok v true) t2)
        = ⟨cacheSet store t2 url v, nc + 1, er, CallerPhase.done (some v), CallerPhase.idle⟩ := by
      simp [step, phaseOf, setPhase]
    have h3 : step ⟨cacheSet store t2 url v, nc + 1, er,
          CallerPhase.done (some v), CallerPhase.idle⟩
        (Event.start CallerId.B url t3)
        = ⟨cacheSet store t2 url v, nc + 1, er,
           CallerPhase.done (some v), CallerPhase.done (some v)⟩ := by
      simp [step, phaseOf, cacheGet_after_cacheSet store t2 t3 url v hexp, setPhase]
    simp [run, h1, h2, h3]

/-- C1 (amended, witness): concrete instance from the empty cache. -/
theorem C1_amended_witness :
    jsMapGet ([] : List (String × CacheEntry)) "u" = none
    ∧ (3 : Nat) ≤ 2 + CACHE_TTL_MS
    ∧ ((run ⟨[], 0, 0, CallerPhase.idle, CallerPhase.idle⟩
          [Event.start CallerId.A "u" 0, Event.start CallerId.B "u" 1]).netCalls = 0 + 2
       ∧ run ⟨[], 0, 0, CallerPhase.idle, CallerPhase.idle⟩
          [Event.start CallerId.A "u" 0,
           Event.settle CallerId.A (NetResult.ok 9 true) 2,
           Event.start CallerId.B "u" 3]
         = ⟨cacheSet [] 2 "u" 9, 0 + 1, 0,
            CallerPhase.done (some 9), CallerPhase.done (some 9)⟩) :=
  ⟨by decide, by decide,
   C1_amended [] 0 0 "u" 0 1 2 3 9 (by decide) (by decide)⟩

/-! ### C2 — failed fetches are not cached -/

/-- C2 (counterexample): after a failed fetch the cache is still empty (no
terminal null is stored), the failing caller resolves to null, and a repeated
call for the same key within the TTL issues a fresh network request
(`netCalls` rises from 1 to 2), contradicting the claimed cached-null
policy. -/
theorem C2_counterexample :
    (run ⟨[], 0, 0, CallerPhase.idle, CallerPhase.idle⟩
        [Event.start CallerId.A "https://slchat.alwaysdata.net/api/user/7/" 0,
         Event.settle CallerId.A NetResult.err 1]).store = []
    ∧ (run ⟨[], 0, 0, CallerPhase.idle, CallerPhase.idle⟩
        [Event.start CallerId.A "https://slchat.alwaysdata.net/api/user/7/" 0,
         Event.settle CallerId.A NetResult.err 1]).callerA = CallerPhase.done none
    ∧ (run ⟨[], 0, 0, CallerPhase.idle, CallerPhase.idle⟩
        [Event.start CallerId.A "https://slchat.alwaysdata.net/api/user/7/" 0,
         Event.settle CallerId.A NetResult.err 1,
         Event.start CallerId.B "https://slchat.alwaysdata.net/api/user/7/" 2]).netCalls
      = 2 := by decide

/-- C2 (amended): a failed fetch is returned to its caller as null but is NOT
cached: the store is left exactly as it was, the error counter is bumped, and
the next call for the same key misses the cache and issues a fresh network
request. -/
theorem C2_amended (store : List (String × CacheEntry)) (nc er : Nat) (url : String)
    (t0 t1 t2 : Nat) (h : jsMapGet store url = none) :
    run ⟨store, nc, er, CallerPhase.idle, CallerPhase.idle⟩
        [Event.start CallerId.A url t0,
         Event.settle CallerId.A NetResult.err t1,
         Event.start CallerId.B url t2]
      = ⟨store, nc + 2, er + 1, CallerPhase.done none, CallerPhase.awaitingNet url⟩ := by
  have h1 : step ⟨store, nc, er, CallerPhase.idle, CallerPhase.idle⟩
      (Event.start CallerId.A url t0)
      = ⟨store, nc + 1, er, CallerPhase.awaitingNet url, CallerPhase.idle⟩ := by
    simp [step, phaseOf, cacheGet_of_absent store t0 url h, setPhase]
  have h2 : step ⟨store, nc + 1, er, CallerPhase.awaitingNet url, CallerPhase.idle⟩
      (Event.settle CallerId.A NetResult.err t1)
      = ⟨store, nc + 1, er + 1, CallerPhase.done none, CallerPhase.idle⟩ := by
    simp [step, phaseOf, setPhase]
  have h3 : step ⟨store, nc + 1, er + 1, CallerPhase.done none, CallerPhase.idle⟩
      (Event.start CallerId.B url t2)
      = ⟨store, nc + 1 + 1, er + 1, CallerPhase.done none, CallerPhase.awaitingNet url⟩ := by
    simp [step, phaseOf, cacheGet_of_absent store t2 url h, setPhase]
  simp [run, h1, h2, h3]

/-- C2 (amended, witness): concrete instance from the empty cache. -/
theorem C2_amended_witness :
    jsMapGet ([] : List (String × CacheEntry)) "u" = none
    ∧ run ⟨[], 0, 0, CallerPhase.idle, CallerPhase.idle⟩
        [Event.start CallerId.A "u" 0,
         Event.settle CallerId.A NetResult.err 1,
         Event.start CallerId.B "u" 2]
      = ⟨[], 0 + 2, 0 + 1, CallerPhase.done none, CallerPhase.awaitingNet "u"⟩ :=
  ⟨by decide, C2_amended [] 0 0 "u" 0 1 2 (by decide)⟩

/-! ### C3 — prefix stripping uses a fixed one-character cut -/

/-- C3 (code evaluation at the failing input): "??" is a valid configured
prefix, the inbound text "??ping hello" passes the startsWith check, yet
dispatch strips exactly ONE character (slice(1)) instead of the prefix
length, parses the command name as "?ping", finds no such handler, and takes
the unknown-command error path — the claimed prefix-length strip would have
invoked the registered "ping" handler with argument "hello". -/
theorem C3_single_char_strip :
    validatedPfx (some "??") = "??"
    ∧ jsStartsWith "??ping hello" "??" = true
    ∧ checkNewCommand false "??ping hello" "??" ["ping"]
        = ⟨false, true, some ("?ping", "hello"), none, true⟩
    ∧ checkNewCommand false "!ping hello" "!" ["ping"]
        = ⟨false, true, some ("ping", "hello"), some "ping", false⟩ := by decide

/-! ### C4 — what the formatter output depends on -/

/-- C4 (counterexample): two inputs longer than maxLength = 5 that agree on
their first 5 characters but produce different outputs — the code trims
BEFORE truncating, so leading whitespace lets characters beyond position
maxLength reach the output. -/
theorem C4_counterexample :
    jsTake "      a" 5 = jsTake "      b" 5
    ∧ 5 < "      a".length
    ∧ 5 < "      b".length
    ∧ formatMessage sanitizeId "      a" 5 ≠ formatMessage sanitizeId "      b" 5 := by
  decide

/-- C4 (amended): the output of formatMessage is determined by the first
maxLength characters of the TRIMMED input (trimming happens before
truncation): any two inputs whose trimmed forms agree on their first
maxLength characters produce identical output, for every sanitizer. -/
theorem C4_amended (sanitize : String → String) (n : Nat) (s1 s2 : String)
    (h : jsTake (jsTrim s1) n = jsTake (jsTrim s2) n) :
    formatMessage sanitize s1 n = formatMessage sanitize s2 n := by
  have hemp : ∀ m : Nat, jsTake (jsTrim "") m = "" := by
    intro m
    have htr : jsTrim "" = "" := rfl
    rw [htr]
    simp [jsTake, List.take_nil]
  unfold formatMessage
  by_cases h1 : s1 = "" <;> by_cases h2 : s2 = ""
  · simp [h1, h2]
  · subst h1
    rw [hemp n] at h
    simp [h2, ← h]
  · subst h2
    rw [hemp n] at h
    simp [h1, h]
  · simp only [h1, h2, if_false]
    rw [h]

/-- C4 (amended, witness): a concrete pair whose trimmed forms agree. -/
theorem C4_amended_witness :
    jsTake (jsTrim "  hi  ") 4 = jsTake (jsTrim "hi") 4
    ∧ formatMessage sanitizeId "  hi  " 4 = formatMessage sanitizeId "hi" 4 :=
  ⟨by decide, C4_amended sanitizeId 4 "  hi  " "hi" (by decide)⟩

/-! ### C5 — embed-prefix dispatch -/

/-- Reduction of formatMessage for short plain inputs: when the input is
non-empty, fixed by trim-and-truncate at 2000, and newline-free, the result
is the sanitized text fed to the prefix-dispatch stage. -/
theorem formatMessage_plain (sanitize : String → String) (s : String) (hs : s ≠ "")
    (ht : jsTake (jsTrim s) 2000 = s) (hb : withBreaksOf s = s) :
    formatMessage sanitize s 2000 = formatSanitized (sanitize s) := by
  unfold formatMessage formatCore
  simp only [ht, if_neg hs]
  rw [hb]

/-- C5 (confirmed): embed dispatch matches the sanitized text
case-insensitively against the embed-type keys longest-key-first and fires
only when the key is immediately followed by a colon.
"embed:info:Hello" yields the info-class container with the info icon around
"Hello"; "embed:info" (no trailing colon + content) is captured by the
shorter generic "embed:" rule, NOT the info rule (its output carries the
bare "embed" class and no icon); "embedinfo:Hello" matches no embed rule and
passes through unchanged.  The sanitizer hypotheses pin down its action on
these three markup-free strings. -/
theorem C5_embed_colon_dispatch (sanitize : String → String)
    (h1 : sanitize "embed:info:Hello" = "embed:info:Hello")
    (h2 : sanitize "embed:info" = "embed:info")
    (h3 : sanitize "embedinfo:Hello" = "embedinfo:Hello") :
    formatMessage sanitize "embed:info:Hello" 2000
        = "<div class=\"embed info\"><i class=\"bx bx-info-circle\"></i> Hello</div>"
    ∧ formatMessage sanitize "embed:info" 2000 = "<div class=\"embed\">info</div>"
    ∧ formatMessage sanitize "embedinfo:Hello" 2000 = "embedinfo:Hello" := by
  refine ⟨?_, ?_, ?_⟩
  · rw [formatMessage_plain sanitize _ (by decide) (by decide) (by decide), h1]
    decide
  · rw [formatMessage_plain sanitize _ (by decide) (by decide) (by decide), h2]
    decide
  · rw [formatMessage_plain sanitize _ (by decide) (by decide) (by decide), h3]
    decide

/-- C5 (witness): instantiated at the identity sanitizer, which fixes the
three markup-free inputs. -/
theorem C5_embed_colon_dispatch_witness :
    sanitizeId "embed:info:Hello" = "embed:info:Hello"
    ∧ sanitizeId "embed:info" = "embed:info"
    ∧ sanitizeId "embedinfo:Hello" = "embedinfo:Hello"
    ∧ (formatMessage sanitizeId "embed:info:Hello" 2000
        = "<div class=\"embed info\"><i class=\"bx bx-info-circle\"></i> Hello</div>"
      ∧ formatMessage sanitizeId "embed:info" 2000 = "<div class=\"embed\">info</div>"
      ∧ formatMessage sanitizeId "embedinfo:Hello" 2000 = "embedinfo:Hello") :=
  ⟨rfl, rfl, rfl, C5_embed_colon_dispatch sanitizeId rfl rfl rfl⟩

/-! ### C6 — per-server send rate limiting -/

/-- send transmits iff the bot is in the server, the message is a non-empty
string, at least RATE_LIMIT_MS elapsed since the last successful send to that
server (0 when none), and a socket instance exists for the server. -/
theorem send_sent_iff (s : BotSendState) (now : Nat) (message serverId : String) :
    (send s now message serverId).2 = SendResult.sent ↔
      (s.serverIds.contains serverId = true ∧ message ≠ ""
       ∧ RATE_LIMIT_MS ≤ now - ((jsMapGet s.lastSent serverId).getD 0)
       ∧ s.hasSocket.contains serverId = true) := by
  unfold send
  split_ifs with ha hb hc hd <;> simp_all [Nat.not_lt]

/-- On a successful send, the state update is exactly: record `now` as the
last send time for that server and bump the sent counter. -/
theorem send_sent_state (s : BotSendState) (now : Nat) (message serverId : String)
    (h : (send s now message serverId).2 = SendResult.sent) :
    (send s now message serverId).1
      = { s with lastSent := jsMapSet s.lastSent serverId now,
                 messagesSent := s.messagesSent + 1 } := by
  obtain ⟨ha, hb, hc, hd⟩ := (send_sent_iff s now message serverId).1 h
  have ha2 : serverId ∈ s.serverIds := by simpa using ha
  have hd2 : serverId ∈ s.hasSocket := by simpa using hd
  unfold send
  simp [ha2, hb, hd2, Nat.not_lt.mpr hc]

/-- C6 (confirmed): after a successful send to a server at time t1, a second
send to that same server before RATE_LIMIT_MS = 1000ms have elapsed is
rejected as rate-limited with the state untouched (not transmitted, not
queued); once the window has elapsed, a send to that server succeeds. -/
theorem C6_send_rate_limit (s : BotSendState) (t1 t2 : Nat) (msg1 msg2 sid : String)
    (hsent : (send s t1 msg1 sid).2 = SendResult.sent)
    (hm2 : msg2 ≠ "") :
    (t2 - t1 < RATE_LIMIT_MS →
      send (send s t1 msg1 sid).1 t2 msg2 sid
        = ((send s t1 msg1 sid).1, SendResult.rateLimited))
    ∧ (RATE_LIMIT_MS ≤ t2 - t1 →
      (send (send s t1 msg1 sid).1 t2 msg2 sid).2 = SendResult.sent) := by
  obtain ⟨ha, hb, hc, hd⟩ := (send_sent_iff s t1 msg1 sid).1 hsent
  have ha2 : sid ∈ s.serverIds := by simpa using ha
  have hd2 : sid ∈ s.hasSocket := by simpa using hd
  rw [send_sent_state s t1 msg1 sid hsent]
  constructor
  · intro hlt
    unfold send
    simp [ha2, hd2, hm2, jsMapGet_jsMapSet, hlt]
  · intro hge
    unfold send
    simp [ha2, hd2, hm2, jsMapGet_jsMapSet, Nat.not_lt.mpr hge]

/-- C6 (witness): concrete bot in server "s1" with a live socket; a send at
t=5000 succeeds, the theorem applied at t=5500 gives the rate-limit
rejection and applied at t=6000 gives the post-window success. -/
theorem C6_send_rate_limit_witness :
    (send ⟨["s1"], [], ["s1"], 0, 0⟩ 5000 "hi" "s1").2 = SendResult.sent
    ∧ ("yo" : String) ≠ ""
    ∧ ((5500 - 5000 < RATE_LIMIT_MS →
          send (send ⟨["s1"], [], ["s1"], 0, 0⟩ 5000 "hi" "s1").1 5500 "yo" "s1"
            = ((send ⟨["s1"], [], ["s1"], 0, 0⟩ 5000 "hi" "s1").1, SendResult.rateLimited))
        ∧ (RATE_LIMIT_MS ≤ 5500 - 5000 →
          (send (send ⟨["s1"], [], ["s1"], 0, 0⟩ 5000 "hi" "s1").1 5500 "yo" "s1").2
            = SendResult.sent))
    ∧ ((6000 - 5000 < RATE_LIMIT_MS →
          send (send ⟨["s1"], [], ["s1"], 0, 0⟩ 5000 "hi" "s1").1 6000 "yo" "s1"
            = ((send ⟨["s1"], [], ["s1"], 0, 0⟩ 5000 "hi" "s1").1, SendResult.rateLimited))
        ∧ (RATE_LIMIT_MS ≤ 6000 - 5000 →
          (send (send ⟨["s1"], [], ["s1"], 0, 0⟩ 5000 "hi" "s1").1 6000 "yo" "s1").2
            = SendResult.sent)) :=
  ⟨by decide, by decide,
   C6_send_rate_limit ⟨["s1"], [], ["s1"], 0, 0⟩ 5000 5500 "hi" "yo" "s1"
     (by decide) (by decide),
   C6_send_rate_limit ⟨["s1"], [], ["s1"], 0, 0⟩ 5000 6000 "hi" "yo" "s1"
     (by decide) (by decide)⟩

/-! ### C7 — automated senders are never dispatched -/

/-- C7 (confirmed): when the sender-is-bot check resolves true, dispatch
returns before creating a Context: the onMessage hook is not invoked and no
registered handler is invoked, whatever the text, prefix and registry. -/
theorem C7_bot_sender_suppressed (user : Option User) (text pfx : String)
    (registered : List String) (h : isBot user = true) :
    (checkNewCommand (isBot user) text pfx registered).onMessageInvoked = false
    ∧ (checkNewCommand (isBot user) text pfx registered).invoked = none := by
  rw [h]
  exact ⟨rfl, rfl⟩

/-- C7 (witness): a sender whose fetched record carries label.name = "BOT". -/
theorem C7_bot_sender_suppressed_witness :
    isBot (some (User.mk (some (UserLabel.mk (some "BOT"))))) = true
    ∧ ((checkNewCommand (isBot (some (User.mk (some (UserLabel.mk (some "BOT"))))))
          "!ping hi" "!" ["ping"]).onMessageInvoked = false
       ∧ (checkNewCommand (isBot (some (User.mk (some (UserLabel.mk (some "BOT"))))))
          "!ping hi" "!" ["ping"]).invoked = none) :=
  ⟨by decide,
   C7_bot_sender_suppressed (some (User.mk (some (UserLabel.mk (some "BOT")))))
     "!ping hi" "!" ["ping"] (by decide)⟩

/-! ### C8 — command registration contract -/

/-- C8 (confirmed): registering with an empty name or a non-callable handler
throws and leaves the registry unchanged; re-registering an existing name
does not throw — it overwrites the handler (the name maps to the new
handler afterwards) and raises the overwrite warning. -/
theorem C8_register (dict : List (String × Nat)) (name : String) (f1 f2 : Nat)
    (h : name ≠ "") :
    commandRegister dict "" (some f1) = (dict, true, false)
    ∧ commandRegister dict name none = (dict, true, false)
    ∧ jsMapGet (commandRegister (commandRegister dict name (some f1)).1
        name (some f2)).1 name = some f2
    ∧ (commandRegister (commandRegister dict name (some f1)).1 name (some f2)).2.1 = false
    ∧ (commandRegister (commandRegister dict name (some f1)).1 name (some f2)).2.2 = true := by
  refine ⟨by simp [commandRegister], rfl, ?_, ?_, ?_⟩
  · simp [commandRegister, h, jsMapGet_jsMapSet]
  · simp [commandRegister, h]
  · simp [commandRegister, h, jsMapHas_jsMapSet]

/-- C8 (witness): registering "x" twice on the empty registry. -/
theorem C8_register_witness :
    ("x" : String) ≠ ""
    ∧ (commandRegister ([] : List (String × Nat)) "" (some 1) = ([], true, false)
       ∧ commandRegister ([] : List (String × Nat)) "x" none = ([], true, false)
       ∧ jsMapGet (commandRegister (commandRegister [] "x" (some 1)).1 "x" (some 2)).1 "x"
           = some 2
       ∧ (commandRegister (commandRegister [] "x" (some 1)).1 "x" (some 2)).2.1 = false
       ∧ (commandRegister (commandRegister [] "x" (some 1)).1 "x" (some 2)).2.2 = true) :=
  ⟨by decide, C8_register [] "x" 1 2 (by decide)⟩

/-! ### C9 — EmbedBuilder build purity and fluent setters -/

/-- C9 (confirmed): build leaves the builder state (every field) unchanged
and is idempotent — a second build on the post-state returns the same
string — and every fluent mutator returns the builder itself (the returned
reference equals the post-state object). -/
theorem C9_build_pure_fluent (b : EmbedBuilder) (t c ic ti d a au aurl : String)
    (st inl : Bool) (n v : String) (fc fo : JsStr) (cc lang : String) :
    (build b).1 = b
    ∧ (build (build b).1).2 = (build b).2
    ∧ (setType b t).2 = (setType b t).1
    ∧ (setColor b c).2 = (setColor b c).1
    ∧ (setIcon b ic).2 = (setIcon b ic).1
    ∧ (setTitle b ti).2 = (setTitle b ti).1
    ∧ (setDescription b d).2 = (setDescription b d).1
    ∧ (setAttachment b a).2 = (setAttachment b a).1
    ∧ (setAuthor b au aurl).2 = (setAuthor b au aurl).1
    ∧ (setShowIcon b st).2 = (setShowIcon b st).1
    ∧ (disableIcon b).2 = (disableIcon b).1
    ∧ (addField b n v inl fc fo).2 = (addField b n v inl fc fo).1
    ∧ (codeBlock b cc lang).2 = (codeBlock b cc lang).1 :=
  ⟨rfl, rfl, rfl, rfl, rfl, rfl, rfl, rfl, rfl, rfl, rfl, rfl, rfl⟩

/-! ### C10 — failed identity lookups dispatch as non-bot -/

/-- Dispatch for a non-bot sender always reaches the onMessage hook. -/
theorem checkNewCommand_not_bot (text pfx : String) (registered : List String) :
    (checkNewCommand false text pfx registered).suppressed = false
    ∧ (checkNewCommand false text pfx registered).onMessageInvoked = true := by
  unfold checkNewCommand
  cases hsw : jsStartsWith text pfx <;> simp [hsw]
  split <;> simp

/-- C10 (confirmed): if the cached user lookup fails (null) or the fetched
record's label.name is not exactly "BOT", isBot resolves false, and the
message is dispatched exactly as a non-automated sender's would be — in
particular it is not suppressed and reaches the onMessage hook. -/
theorem C10_failed_lookup_dispatches (user : Option User) (text pfx : String)
    (registered : List String)
    (h : user = none ∨ ∃ u, user = some u ∧ (u.label.bind (fun l => l.name)) ≠ some "BOT") :
    isBot user = false
    ∧ checkNewCommand (isBot user) text pfx registered
        = checkNewCommand false text pfx registered
    ∧ (checkNewCommand (isBot user) text pfx registered).suppressed = false
    ∧ (checkNewCommand (isBot user) text pfx registered).onMessageInvoked = true := by
  have hb : isBot user = false := by
    rcases h with rfl | ⟨u, rfl, hn⟩
    · rfl
    · simpa [isBot] using hn
  rw [hb]
  exact ⟨rfl, rfl, (checkNewCommand_not_bot text pfx registered).1,
         (checkNewCommand_not_bot text pfx registered).2⟩

/-- C10 (witness): a failed lookup (null user), dispatched normally. -/
theorem C10_failed_lookup_dispatches_witness :
    ((none : Option User) = none
      ∨ ∃ u, (none : Option User) = some u ∧ (u.label.bind (fun l => l.name)) ≠ some "BOT")
    ∧ (isBot none = false
       ∧ checkNewCommand (isBot none) "!ping hi" "!" ["ping"]
           = checkNewCommand false "!ping hi" "!" ["ping"]
       ∧ (checkNewCommand (isBot none) "!ping hi" "!" ["ping"]).suppressed = false
       ∧ (checkNewCommand (isBot none) "!ping hi" "!" ["ping"]).onMessageInvoked = true) :=
  ⟨Or.inl rfl, C10_failed_lookup_dispatches none "!ping hi" "!" ["ping"] (Or.inl rfl)⟩

end Slchat
